import Mathlib

/-!
Verification of the container lifecycle state machine in
`libcontainerd/container_windows.go` (functions `start` and `waitExit` on the
`container` type).

The Go code is shallowly embedded: every external call (hcsshim host API,
backend, registry, restart manager) is recorded as an `Event` in an execution
trace, and the outcome of each external call is supplied up front by a `Host`
record acting as the environment oracle.  The fire-and-forget goroutine that
awaits the restart manager completion channel is sequenced after the main
flow notification, matching the intended schedule in which the completion
channel resolves only after `waitExit` has notified the backend; the receive
from the completion channel is recorded as an explicit `restartWaitResolved`
event so that orderings relative to it can be stated.
-/

namespace Libcontainerd

/-- Error codes distinguished by the error classification in `start` and
`waitExit`: `syscall.ERROR_BROKEN_PIPE`, `hcsshim.ERROR_SHUTDOWN_IN_PROGRESS`,
`ErrorBadPathname`, `syscall.ERROR_PATH_NOT_FOUND`, and everything else. -/
inductive Errno
  | errorBrokenPipe
  | errorShutdownInProgress
  | errorBadPathname
  | errorPathNotFound
  | otherCode (n : Nat)
deriving DecidableEq, Repr

/-- A Go error value as classified by the source: either a
`hcsshim.HcsError` wrapping an inner error code (the only shape the type
assertions in the source accept), or any other non-nil error. -/
inductive GoError
  | hcsError (e : Errno)
  | plain (msg : String)
deriving DecidableEq, Repr

/-- The state tags of `StateInfo`: `StateStart`, `StateExit`,
`StateRestart`, `StateExitProcess`. -/
inductive ContainerState
  | stateStart
  | stateExit
  | stateRestart
  | stateExitProcess
deriving DecidableEq, Repr

/-- `StateInfo` with the embedded `CommonStateInfo` fields inlined:
state tag, process id, exit code, friendly process name, and the
host-reported pending-update flag. -/
structure StateInfo where
  State : ContainerState
  Pid : Nat
  ExitCode : Nat
  ProcessID : String
  UpdatePending : Bool
deriving DecidableEq, Repr

/-- Initial console dimensions from the process spec. -/
structure consoleSize where
  Height : Nat
  Width : Nat
deriving DecidableEq, Repr

/-- The process definition consumed from `ctr.ociSpec.Process`. -/
structure processSpec where
  Terminal : Bool
  Cwd : String
  Env : List String
  Args : List String
  InitialConsoleSize : consoleSize
deriving DecidableEq, Repr

/-- The OCI spec; only the `Process` part is read by this code. -/
structure Spec where
  Process : processSpec
deriving DecidableEq, Repr

/-- A creation option.  The source only type-asserts for `*ServicingOption`
and reads its `IsServicing` field; every other variant is opaque. -/
inductive CreateOption
  | servicingOption (IsServicing : Bool)
  | otherOption (tag : Nat)
deriving DecidableEq, Repr

/-- The `container` type: identity, options, spec and the runtime flags the
state machine reads.  `hasRestartManager` models whether
`ctr.restartManager != nil`; the behaviour of a configured restart manager
lives in the `Host` oracle. -/
structure container where
  containerID : String
  friendlyName : String
  options : List CreateOption
  ociSpec : Spec
  manualStopRequested : Bool
  hasRestartManager : Bool
deriving DecidableEq, Repr

/-- `hcsshim.CreateProcessParams` as populated by `start`. -/
structure CreateProcessParams where
  EmulateConsole : Bool
  WorkingDirectory : String
  ConsoleSize : consoleSize
  Environment : List String
  CommandLine : String
deriving DecidableEq, Repr

/-- The stream bundle handed to the backend.  `hasStdout`/`hasStderr`
record whether the host returned non-nil read ends. -/
structure IOPipe where
  Terminal : Bool
  hasStdin : Bool
  hasStdout : Bool
  hasStderr : Bool
deriving DecidableEq, Repr

/-- Environment oracle: the outcome of every external call the two
functions can make, fixed up front for one execution.  `none` for an
`Option GoError` field means the call returned a nil error. -/
structure Host where
  /-- Result of `hcsshim.StartComputeSystem`. -/
  StartComputeSystem : Option GoError
  /-- Result of `hcsshim.ShutdownComputeSystem`. -/
  ShutdownComputeSystem : Option GoError
  /-- Result of `hcsshim.TerminateComputeSystem`. -/
  TerminateComputeSystem : Option GoError
  /-- Result of `hcsshim.CreateProcessInComputeSystem`: the new pid, or an
  error. -/
  CreateProcessInComputeSystem : Except GoError Nat
  /-- Whether the stdout read end returned by process creation is non-nil. -/
  stdoutPipe : Bool
  /-- Whether the stderr read end returned by process creation is non-nil. -/
  stderrPipe : Bool
  /-- Result of `hcsshim.WaitForProcessInComputeSystem`: exit code and
  error. -/
  WaitForProcessInComputeSystem : Nat × Option GoError
  /-- Result of `hcsshim.GetComputeSystemProperties`: the
  `AreUpdatesPending` flag, or an error. -/
  GetComputeSystemProperties : Except GoError Bool
  /-- Result of `backend.AttachStreams`. -/
  AttachStreams : Option GoError
  /-- Result of `backend.StateChanged`. -/
  StateChanged : Option GoError
  /-- Result of `restartManager.ShouldRestart`: an error, or the restart
  decision paired with the value later received from the completion
  channel (`none` meaning the channel yielded a nil error). -/
  ShouldRestart : Except GoError (Bool × Option GoError)
  /-- The value of `time.Since(ctr.startedAt)` at decision time. -/
  elapsedSinceStart : Nat
deriving Repr

/-- One observable action of an execution: a host API call, a registry
operation, a backend call, the launch of the monitor goroutine, or the
receive from the restart completion channel. -/
inductive Event
  | startComputeSystemCall
  | shutdownComputeSystemCall (timeout : Nat) (operation : String)
  | terminateComputeSystemCall (timeout : Nat) (operation : String)
  | createProcessCall (useStdin useStdout useStderr : Bool) (params : CreateProcessParams)
  | waitForProcessCall (pid : Nat) (timeout : Nat)
  | getPropertiesCall (flags : Nat)
  | shouldRestartCall (exitCode : Nat) (ranToCompletion : Bool) (elapsed : Nat)
  | appendContainerCall
  | deleteContainerCall (friendlyName : String)
  | attachStreamsCall (iopipe : IOPipe)
  | stateChangedCall (si : StateInfo)
  | launchWaitExit (pid : Nat) (friendlyName : String) (isFirst : Bool)
  | createCall
  | restartWaitResolved (failed : Bool)
deriving DecidableEq, Repr

/-- `hcsshim.TimeoutInfinite` (0xFFFFFFFF). -/
def TimeoutInfinite : Nat := 4294967295

/-- Modelled from the spec: the friendly name used for the init process
(`InitFriendlyName`); its definition lives outside the provided source
file.  Its concrete value is irrelevant to every property proved here. -/
def InitFriendlyName : String := "init"

/-- The `shutdownTimeout` constant local to the servicing branch of
`start`: the value in the source is `5 * 60 * 1000` milliseconds even
though the adjacent source comment says 4 minutes. -/
def servicingShutdownTimeout : Nat := 5 * 60 * 1000

/-- The `terminateTimeout` constant local to the servicing branch of
`start`: `1 * 60 * 1000` milliseconds (1 minute). -/
def servicingTerminateTimeout : Nat := 1 * 60 * 1000

/-- The `shutdownTimeout` constant local to `waitExit`:
`5 * 60 * 1000` milliseconds (5 minutes).  The same constant is reused for
the `TerminateComputeSystem` fallback inside `waitExit`. -/
def waitExitShutdownTimeout : Nat := 5 * 60 * 1000

/-- Modelled from the spec: `setupEnvironmentVariables` (defined outside
the provided source file) packages the environment as key=value pairs; it
is kept abstract as the identity on the already key=value formatted list,
since nothing here inspects the environment. -/
def setupEnvironmentVariables (env : List String) : List String := env

/-- Whether an option is a `*ServicingOption` with `IsServicing` set, the
test performed by the option loop in `start`. -/
def isServicingTrue : CreateOption → Bool
  | .servicingOption true => true
  | _ => false

/-- The `hcsshim.CreateProcessParams` value assembled by `start`:
console emulation from the terminal flag, working directory, initial
console size, environment, and the argument list joined by spaces. -/
def mkCreateProcessParams (ctr : container) : CreateProcessParams :=
  { EmulateConsole := ctr.ociSpec.Process.Terminal
    WorkingDirectory := ctr.ociSpec.Process.Cwd
    ConsoleSize := ctr.ociSpec.Process.InitialConsoleSize
    Environment := setupEnvironmentVariables ctr.ociSpec.Process.Env
    CommandLine := String.intercalate " " ctr.ociSpec.Process.Args }

/-- `(ctr *container) start()`: returns the Go error result and the trace
of external actions, following the source line by line.

* `StartComputeSystem` failing returns that error at once.
* A servicing option diverts to shutdown (with `servicingShutdownTimeout`)
  and, if shutdown errors, a terminate fallback whose own error is only
  logged while the original shutdown error is returned.
* Otherwise a process is created asking for stdin and stdout always and
  stderr exactly when not in terminal mode; on creation failure the
  compute system is terminated with `TimeoutInfinite` (the terminate error
  is only logged) and the creation error returned.
* On success the monitor goroutine is launched, the container registered,
  streams attached (an attach error is returned with no further action),
  and a `StateStart` notification sent, whose error is the return value. -/
def start (ctr : container) (host : Host) : Option GoError × List Event :=
  match host.StartComputeSystem with
  | some e => (some e, [.startComputeSystemCall])
  | none =>
    if ctr.options.any isServicingTrue then
      match host.ShutdownComputeSystem with
      | some e =>
        (some e, [.startComputeSystemCall,
                  .shutdownComputeSystemCall servicingShutdownTimeout "",
                  .terminateComputeSystemCall servicingTerminateTimeout ""])
      | none =>
        (none, [.startComputeSystemCall,
                .shutdownComputeSystemCall servicingShutdownTimeout ""])
    else
      let createEv := Event.createProcessCall true true (!ctr.ociSpec.Process.Terminal)
        (mkCreateProcessParams ctr)
      match host.CreateProcessInComputeSystem with
      | .error e =>
        (some e, [.startComputeSystemCall, createEv,
                  .terminateComputeSystemCall TimeoutInfinite "CreateProcessInComputeSystem failed"])
      | .ok pid =>
        let iopipe : IOPipe :=
          { Terminal := ctr.ociSpec.Process.Terminal
            hasStdin := true
            hasStdout := host.stdoutPipe
            hasStderr := host.stderrPipe }
        let evs := [Event.startComputeSystemCall, createEv,
                    .launchWaitExit pid InitFriendlyName true,
                    .appendContainerCall,
                    .attachStreamsCall iopipe]
        match host.AttachStreams with
        | some e => (some e, evs)
        | none =>
          let si : StateInfo :=
            { State := .stateStart, Pid := pid % 4294967296, ExitCode := 0,
              ProcessID := "", UpdatePending := false }
          (host.StateChanged, evs ++ [.stateChangedCall si])

/-- The whitelist test applied to a `ShutdownComputeSystem` error inside
`waitExit`: the fallback terminate is skipped exactly when the error is a
`HcsError` whose inner code is `ERROR_SHUTDOWN_IN_PROGRESS`,
`ErrorBadPathname` or `ERROR_PATH_NOT_FOUND`. -/
def shutdownErrorWhitelisted : GoError → Bool
  | .hcsError e =>
      e == Errno.errorShutdownInProgress || e == Errno.errorBadPathname ||
        e == Errno.errorPathNotFound
  | .plain _ => false

/-- Whether `waitExit` consults the restart manager: the source condition
`!ctr.manualStopRequested && ctr.restartManager != nil`. -/
def restartConsulted (ctr : container) : Bool :=
  !ctr.manualStopRequested && ctr.hasRestartManager

/-- Whether the restart manager is consulted and grants a restart. -/
def restartGranted (ctr : container) (host : Host) : Bool :=
  restartConsulted ctr &&
    (match host.ShouldRestart with
     | .ok (true, _) => true
     | _ => false)

/-- Whether a restart is granted and the completion channel later yields a
non-nil error. -/
def restartWaitFailed (ctr : container) (host : Host) : Bool :=
  restartConsulted ctr &&
    (match host.ShouldRestart with
     | .ok (true, some _) => true
     | _ => false)

/-- `(ctr *container) waitExit(pid, processFriendlyName,
isFirstProcessToStart)`: the trace of external actions of one monitor
run, following the source line by line.

* Block on `WaitForProcessInComputeSystem` (both error cases only log and
  fall through, so only the exit code matters).
* Build a `StateExit` StateInfo; a non-init process flips it to
  `StateExitProcess` and goes straight to notification.
* Init only: query pending updates (failure leaves the flag false), then
  shutdown with `waitExitShutdownTimeout`; a non-whitelisted shutdown
  error triggers a terminate fallback with the same timeout whose error is
  only logged.
* Init only: when no manual stop was requested and a restart manager is
  configured, call `ShouldRestart` with the exit code, `false` for ran to
  completion, and the elapsed time; a decision error only logs.  A granted
  restart marks the StateInfo `StateRestart` and schedules the completion
  goroutine: receive from the channel, deregister the container, then
  either notify a downgraded `StateExit` (channel error) or re-create the
  container (channel success).
* If the StateInfo still reads `StateExit` the container is deregistered,
  and in every path exactly one notification of the built StateInfo is
  sent from the main flow (its error is only logged).  The completion
  goroutine events are sequenced after that notification. -/
def waitExit (ctr : container) (host : Host) (pid : Nat)
    (processFriendlyName : String) (isFirstProcessToStart : Bool) : List Event :=
  let exitCode := host.WaitForProcessInComputeSystem.1 % 4294967296
  let evWait := [Event.waitForProcessCall pid TimeoutInfinite]
  let si : StateInfo :=
    { State := .stateExit, ExitCode := exitCode, Pid := pid,
      ProcessID := processFriendlyName, UpdatePending := false }
  if !isFirstProcessToStart then
    evWait ++ [.stateChangedCall { si with State := .stateExitProcess }]
  else
    let si : StateInfo :=
      match host.GetComputeSystemProperties with
      | .error _ => si
      | .ok pending => { si with UpdatePending := pending }
    let evProps := [Event.getPropertiesCall 1]
    let evShutdown := [Event.shutdownComputeSystemCall waitExitShutdownTimeout "waitExit"]
    let evTerminate : List Event :=
      match host.ShutdownComputeSystem with
      | none => []
      | some e =>
        if shutdownErrorWhitelisted e then []
        else [Event.terminateComputeSystemCall waitExitShutdownTimeout "waitExit"]
    let evRestartCall : List Event :=
      if restartConsulted ctr then
        [Event.shouldRestartCall exitCode false host.elapsedSinceStart]
      else []
    let siFinal : StateInfo :=
      if restartGranted ctr host then { si with State := .stateRestart } else si
    let evContinuation : List Event :=
      if restartGranted ctr host then
        match host.ShouldRestart with
        | .ok (_, some _) =>
          [Event.restartWaitResolved true,
           .deleteContainerCall ctr.friendlyName,
           .stateChangedCall { si with State := .stateExit }]
        | _ =>
          [Event.restartWaitResolved false,
           .deleteContainerCall ctr.friendlyName,
           .createCall]
      else []
    let evDelete : List Event :=
      if siFinal.State == ContainerState.stateExit then
        [Event.deleteContainerCall ctr.friendlyName]
      else []
    evWait ++ evProps ++ evShutdown ++ evTerminate ++ evRestartCall ++ evDelete
      ++ [.stateChangedCall siFinal] ++ evContinuation

/-! Event classifiers used by the statements below. -/

/-- Whether an event is a backend `StateChanged` call. -/
def isStateChangedCall : Event → Bool
  | .stateChangedCall _ => true
  | _ => false

/-- Whether an event is a `StateChanged` call carrying the given state tag. -/
def isStateChangedTo (s : ContainerState) : Event → Bool
  | .stateChangedCall si => si.State == s
  | _ => false

/-- Whether an event is a `StateChanged` call carrying one of the states
the terminal-notification claim enumerates: `StateExit` (which also covers
a downgraded exit) or `StateRestart`. -/
def isTerminalStateChanged : Event → Bool
  | .stateChangedCall si =>
      si.State == ContainerState.stateExit || si.State == ContainerState.stateRestart
  | _ => false

/-- Whether an event is a `ShutdownComputeSystem` call. -/
def isShutdownCall : Event → Bool
  | .shutdownComputeSystemCall _ _ => true
  | _ => false

/-- Whether an event is a `TerminateComputeSystem` call. -/
def isTerminateCall : Event → Bool
  | .terminateComputeSystemCall _ _ => true
  | _ => false

/-- Whether an event is a `CreateProcessInComputeSystem` call. -/
def isCreateProcessCall : Event → Bool
  | .createProcessCall _ _ _ _ => true
  | _ => false

/-- Whether an event launches the `waitExit` monitor goroutine. -/
def isLaunchWaitExit : Event → Bool
  | .launchWaitExit _ _ _ => true
  | _ => false

/-- Whether an event is a backend `AttachStreams` call (the consumption of
an `IOPipe`). -/
def isAttachStreamsCall : Event → Bool
  | .attachStreamsCall _ => true
  | _ => false

/-- Whether an event is a `restartManager.ShouldRestart` call. -/
def isShouldRestartCall : Event → Bool
  | .shouldRestartCall _ _ _ => true
  | _ => false

/-- Whether an event deregisters the container from the registry. -/
def isDeleteContainerCall : Event → Bool
  | .deleteContainerCall _ => true
  | _ => false

/-- Whether an event is the receive from the restart completion channel. -/
def isRestartWaitResolved : Event → Bool
  | .restartWaitResolved _ => true
  | _ => false

/-- Whether an event is the re-entrant `client.Create` of the restart
path. -/
def isCreateCall : Event → Bool
  | .createCall => true
  | _ => false

/-- The number of terminal (`StateExit` or `StateRestart`) backend
notifications in a trace. -/
def terminalNotifyCount (evs : List Event) : Nat :=
  (evs.filter isTerminalStateChanged).length

/-- Whether some deregistration occurs strictly before the receive from
the restart completion channel (before any `restartWaitResolved` event). -/
def deleteBeforeResolve (evs : List Event) : Bool :=
  (evs.takeWhile fun ev => !isRestartWaitResolved ev).any isDeleteContainerCall

/-- Whether some deregistration occurs at or after the receive from the
restart completion channel. -/
def deleteAfterResolve (evs : List Event) : Bool :=
  (evs.dropWhile fun ev => !isRestartWaitResolved ev).any isDeleteContainerCall

/-- Whether an event, if it is a shutdown call, carries the 5-minute
timeout the source actually passes. -/
def shutdownTimeoutIsFiveMinutes : Event → Bool
  | .shutdownComputeSystemCall t _ => t == 5 * 60 * 1000
  | _ => true

/-- Whether an event is a shutdown call with a 4-minute timeout. -/
def isFourMinuteShutdownCall : Event → Bool
  | .shutdownComputeSystemCall t _ => t == 4 * 60 * 1000
  | _ => false

/-- Whether an event is a terminate call with a 1-minute timeout. -/
def isOneMinuteTerminateCall : Event → Bool
  | .terminateComputeSystemCall t _ => t == 1 * 60 * 1000
  | _ => false

/-! Concrete fixtures used by witnesses and counterexamples. -/

/-- A sample process spec. -/
def specSample : Spec :=
  { Process :=
    { Terminal := false, Cwd := "c:", Env := ["PATH=c:"],
      Args := ["cmd", "/c", "dir"],
      InitialConsoleSize := { Height := 25, Width := 80 } } }

/-- A sample container with no servicing option, no manual stop and no
restart manager. -/
def ctrBase : container :=
  { containerID := "abc", friendlyName := "abc-name", options := [],
    ociSpec := specSample, manualStopRequested := false,
    hasRestartManager := false }

/-- A host oracle on which every external call succeeds. -/
def hostBase : Host :=
  { StartComputeSystem := none, ShutdownComputeSystem := none,
    TerminateComputeSystem := none,
    CreateProcessInComputeSystem := .ok 4660,
    stdoutPipe := true, stderrPipe := true,
    WaitForProcessInComputeSystem := (0, none),
    GetComputeSystemProperties := .ok false,
    AttachStreams := none, StateChanged := none,
    ShouldRestart := .error (GoError.plain "no decision"),
    elapsedSinceStart := 1000 }

/-- A container with a configured restart manager. -/
def ctrRestart : container := { ctrBase with hasRestartManager := true }

/-- A container carrying a servicing option. -/
def ctrServicing : container := { ctrBase with options := [.servicingOption true] }

/-- A host granting a restart whose completion channel then yields an
error. -/
def hostRestartFail : Host :=
  { hostBase with
    WaitForProcessInComputeSystem := (1, none),
    ShouldRestart := .ok (true, some (GoError.plain "restart failed")) }

/-- A host granting a restart whose completion channel yields success. -/
def hostRestartOk : Host :=
  { hostBase with ShouldRestart := .ok (true, none) }

/-- A host on which the `waitExit` shutdown fails with a non-whitelisted
error. -/
def hostShutdownFail : Host :=
  { hostBase with
    ShutdownComputeSystem := some (GoError.hcsError (Errno.otherCode 5)) }

/-- A host on which the `waitExit` shutdown fails with the whitelisted
shutdown-already-in-progress error. -/
def hostShutdownRace : Host :=
  { hostBase with
    ShutdownComputeSystem :=
      some (GoError.hcsError Errno.errorShutdownInProgress) }

/-! Claim theorems. -/

/-- Claim C6: every exit of a non-init (exec-ed) process produces exactly
the wait call followed by a single `StateExitProcess` notification — no
shutdown or termination of the compute system and no restart-manager
consultation. -/
theorem waitExit_exec_process_trace (ctr : container) (host : Host) (pid : Nat)
    (name : String) :
    waitExit ctr host pid name false =
      [.waitForProcessCall pid TimeoutInfinite,
       .stateChangedCall
         { State := .stateExitProcess,
           ExitCode := host.WaitForProcessInComputeSystem.1 % 4294967296,
           Pid := pid, ProcessID := name, UpdatePending := false }] := rfl

/-- Claim C10: when `StartComputeSystem` itself fails, `start` returns
that error at once and the trace holds nothing but the failed call: no
termination, no process creation, no registration, no notification. -/
theorem start_compute_system_failure (ctr : container) (host : Host) (e : GoError)
    (h : host.StartComputeSystem = some e) :
    (start ctr host).1 = some e ∧
      (start ctr host).2 = [.startComputeSystemCall] := by
  simp [start, h]

/-- Witness for C10 at a concrete container and host. -/
theorem start_compute_system_failure_witness :
    ({ hostBase with StartComputeSystem := some (GoError.plain "no vm") } :
        Host).StartComputeSystem = some (GoError.plain "no vm") ∧
    (start ctrBase { hostBase with StartComputeSystem := some (GoError.plain "no vm") }).1 =
      some (GoError.plain "no vm") ∧
    (start ctrBase { hostBase with StartComputeSystem := some (GoError.plain "no vm") }).2 =
      [.startComputeSystemCall] :=
  ⟨rfl, start_compute_system_failure ctrBase
    { hostBase with StartComputeSystem := some (GoError.plain "no vm") }
    (GoError.plain "no vm") rfl⟩

/-- Claim C2: when `manualStopRequested` is true at classification time,
no `ShouldRestart` call, no re-entrant `Create`, and no `StateRestart`
notification appears in the monitor trace, whatever the restart-manager
configuration and whatever the host does. -/
theorem waitExit_manual_stop_no_restart (ctr : container) (host : Host) (pid : Nat)
    (name : String) (first : Bool) (h : ctr.manualStopRequested = true) :
    (waitExit ctr host pid name first).all
      (fun ev => !isShouldRestartCall ev && !isCreateCall ev &&
        !isStateChangedTo ContainerState.stateRestart ev) = true := by
  have hc : restartConsulted ctr = false := by
    simp [restartConsulted, h]
  have hg : restartGranted ctr host = false := by
    simp [restartGranted, hc]
  cases first with
  | false =>
    simp [waitExit, isShouldRestartCall, isCreateCall, isStateChangedTo]
  | true =>
    rcases hgp : host.GetComputeSystemProperties with e | pending <;>
      rcases hsh : host.ShutdownComputeSystem with _ | e2 <;>
      simp [waitExit, hc, hg, hgp, hsh, isShouldRestartCall, isCreateCall,
        isStateChangedTo, isTerminalStateChanged]

/-- Witness for C2: a manually stopped container with a configured restart
manager that would grant a restart, yet the trace contains no restart
activity. -/
theorem waitExit_manual_stop_no_restart_witness :
    ({ ctrBase with manualStopRequested := true, hasRestartManager := true } :
        container).manualStopRequested = true ∧
    (waitExit { ctrBase with manualStopRequested := true, hasRestartManager := true }
        { hostBase with ShouldRestart := .ok (true, none) } 77 "init" true).all
      (fun ev => !isShouldRestartCall ev && !isCreateCall ev &&
        !isStateChangedTo ContainerState.stateRestart ev) = true :=
  ⟨rfl, waitExit_manual_stop_no_restart
    { ctrBase with manualStopRequested := true, hasRestartManager := true }
    { hostBase with ShouldRestart := .ok (true, none) } 77 "init" true rfl⟩

/-- Claim C9: in every non-servicing `start` that reaches process
creation, the single `CreateProcessInComputeSystem` call asks for stdin
and stdout unconditionally and asks for stderr exactly when the process is
not in terminal mode. -/
theorem start_create_process_streams (ctr : container) (host : Host)
    (hns : ctr.options.any isServicingTrue = false)
    (hcs : host.StartComputeSystem = none) :
    (start ctr host).2.filter isCreateProcessCall =
      [.createProcessCall true true (!ctr.ociSpec.Process.Terminal)
        (mkCreateProcessParams ctr)] := by
  rcases hc : host.CreateProcessInComputeSystem with e | pid <;>
    rcases ha : host.AttachStreams with _ | e2 <;>
    simp [start, hns, hcs, hc, ha, isCreateProcessCall]

/-- Witness for C9: a terminal-mode container, whose creation call asks
for stdin and stdout but not stderr. -/
theorem start_create_process_streams_witness :
    ({ ctrBase with ociSpec :=
        { Process := { specSample.Process with Terminal := true } } } :
        container).options.any isServicingTrue = false ∧
    hostBase.StartComputeSystem = none ∧
    (start { ctrBase with ociSpec :=
        { Process := { specSample.Process with Terminal := true } } }
      hostBase).2.filter isCreateProcessCall =
      [.createProcessCall true true false
        (mkCreateProcessParams { ctrBase with ociSpec :=
          { Process := { specSample.Process with Terminal := true } } })] :=
  ⟨rfl, rfl, start_create_process_streams
    { ctrBase with ociSpec :=
        { Process := { specSample.Process with Terminal := true } } }
    hostBase rfl rfl⟩

/-- Claim C8: when process creation fails in a non-servicing `start`, the
compute system is terminated (best-effort: the oracle result of the
terminate call is universally quantified and never read), the original
creation error is returned, and no monitor goroutine launch, registration
or notification appears in the trace. -/
theorem start_create_process_failure (ctr : container) (host : Host) (e : GoError)
    (hns : ctr.options.any isServicingTrue = false)
    (hcs : host.StartComputeSystem = none)
    (hcp : host.CreateProcessInComputeSystem = .error e) :
    (start ctr host).1 = some e ∧
    (start ctr host).2 =
      [.startComputeSystemCall,
       .createProcessCall true true (!ctr.ociSpec.Process.Terminal)
         (mkCreateProcessParams ctr),
       .terminateComputeSystemCall TimeoutInfinite
         "CreateProcessInComputeSystem failed"] := by
  simp [start, hns, hcs, hcp]

/-- Witness for C8: creation fails while the terminate fallback itself
also fails; the creation error is still the one returned. -/
theorem start_create_process_failure_witness :
    ctrBase.options.any isServicingTrue = false ∧
    ({ hostBase with
        CreateProcessInComputeSystem := .error (GoError.plain "exe missing"),
        TerminateComputeSystem := some (GoError.plain "terminate failed") } :
        Host).StartComputeSystem = none ∧
    (start ctrBase
      { hostBase with
        CreateProcessInComputeSystem := .error (GoError.plain "exe missing"),
        TerminateComputeSystem := some (GoError.plain "terminate failed") }).1 =
      some (GoError.plain "exe missing") ∧
    (start ctrBase
      { hostBase with
        CreateProcessInComputeSystem := .error (GoError.plain "exe missing"),
        TerminateComputeSystem := some (GoError.plain "terminate failed") }).2 =
      [.startComputeSystemCall,
       .createProcessCall true true true (mkCreateProcessParams ctrBase),
       .terminateComputeSystemCall TimeoutInfinite
         "CreateProcessInComputeSystem failed"] :=
  ⟨rfl, rfl, start_create_process_failure ctrBase
    { hostBase with
      CreateProcessInComputeSystem := .error (GoError.plain "exe missing"),
      TerminateComputeSystem := some (GoError.plain "terminate failed") }
    (GoError.plain "exe missing") rfl rfl rfl⟩

/-- Claim C4: a servicing-mode `start` that brings the compute system up
returns exactly the shutdown call result — so the original shutdown error
is returned even when the terminate fallback succeeds, since the oracle
result of the terminate call is never read — and its trace is the start
call, the shutdown call, and the terminate fallback exactly when shutdown
failed: no process creation, no `IOPipe` hand-off, no monitor goroutine
launch. -/
theorem start_servicing_mode (ctr : container) (host : Host)
    (hs : ctr.options.any isServicingTrue = true)
    (hcs : host.StartComputeSystem = none) :
    (start ctr host).1 = host.ShutdownComputeSystem ∧
    (start ctr host).2 =
      .startComputeSystemCall ::
      .shutdownComputeSystemCall servicingShutdownTimeout "" ::
      (match host.ShutdownComputeSystem with
       | some _ => [Event.terminateComputeSystemCall servicingTerminateTimeout ""]
       | none => []) := by
  rcases hsh : host.ShutdownComputeSystem with _ | e <;>
    simp [start, hs, hcs, hsh]

/-- Witness for C4: a servicing container whose shutdown fails while the
terminate fallback succeeds; the original shutdown error is returned and
no process-creation, attach or monitor-launch event occurs. -/
theorem start_servicing_mode_witness :
    ({ ctrBase with options := [.servicingOption true] } :
        container).options.any isServicingTrue = true ∧
    ({ hostBase with
        ShutdownComputeSystem := some (GoError.plain "merge failed"),
        TerminateComputeSystem := none } : Host).StartComputeSystem = none ∧
    (start { ctrBase with options := [.servicingOption true] }
      { hostBase with
        ShutdownComputeSystem := some (GoError.plain "merge failed"),
        TerminateComputeSystem := none }).1 =
      ({ hostBase with
        ShutdownComputeSystem := some (GoError.plain "merge failed"),
        TerminateComputeSystem := none } : Host).ShutdownComputeSystem ∧
    (start { ctrBase with options := [.servicingOption true] }
      { hostBase with
        ShutdownComputeSystem := some (GoError.plain "merge failed"),
        TerminateComputeSystem := none }).2 =
      [.startComputeSystemCall,
       .shutdownComputeSystemCall servicingShutdownTimeout "",
       .terminateComputeSystemCall servicingTerminateTimeout ""] :=
  ⟨rfl, rfl, start_servicing_mode
    { ctrBase with options := [.servicingOption true] }
    { hostBase with
      ShutdownComputeSystem := some (GoError.plain "merge failed"),
      TerminateComputeSystem := none } rfl rfl⟩

/-- Claim C5: when the init-process shutdown fails with a non-whitelisted
error, a terminate call appears strictly before the backend notification;
when it fails with a whitelisted error (shutdown already in progress or
the path-not-found class), no terminate call occurs anywhere in the
trace. -/
theorem waitExit_shutdown_fallback (ctr : container) (host : Host) (pid : Nat)
    (name : String) (e : GoError)
    (hsh : host.ShutdownComputeSystem = some e) :
    (shutdownErrorWhitelisted e = false →
      (((waitExit ctr host pid name true).takeWhile fun ev => !isStateChangedCall ev).any
        isTerminateCall) = true) ∧
    (shutdownErrorWhitelisted e = true →
      ((waitExit ctr host pid name true).all fun ev => !isTerminateCall ev) = true ∧
      ((waitExit ctr host pid name true).any isStateChangedCall) = true) := by
  constructor
  · intro hw
    rcases hgp : host.GetComputeSystemProperties with e1 | pending <;>
      simp [waitExit, hsh, hw, hgp, isStateChangedCall, isTerminateCall]
  · intro hw
    rcases hgp : host.GetComputeSystemProperties with e1 | pending <;>
    cases hrc : restartConsulted ctr <;>
    rcases hsr : host.ShouldRestart with er | ⟨_ | _, _ | we⟩ <;>
      simp [waitExit, hsh, hw, hgp, hrc, hsr, restartGranted,
        isStateChangedCall, isTerminateCall]

/-- Witness for C5: a non-whitelisted shutdown error leads to a terminate
call ahead of the notification. -/
theorem waitExit_shutdown_fallback_witness :
    hostShutdownFail.ShutdownComputeSystem =
      some (GoError.hcsError (Errno.otherCode 5)) ∧
    shutdownErrorWhitelisted (GoError.hcsError (Errno.otherCode 5)) = false ∧
    (((waitExit ctrBase hostShutdownFail 3 "init" true).takeWhile
        fun ev => !isStateChangedCall ev).any isTerminateCall) = true :=
  ⟨rfl, rfl,
    (waitExit_shutdown_fallback ctrBase hostShutdownFail 3 "init"
      (GoError.hcsError (Errno.otherCode 5)) rfl).1 rfl⟩

/-- Claim C1 counterexample: when a restart is granted and the completion
channel yields an error, the monitor sends two notifications from the set
the claim calls terminal — a `StateRestart` followed by a downgraded
`StateExit` — within the same lifecycle instance, so the count is 2, not
the exactly-one the claim asserts. -/
theorem waitExit_two_terminal_notifications :
    terminalNotifyCount (waitExit ctrRestart hostRestartFail 9 "init" true) = 2 ∧
    terminalNotifyCount (waitExit ctrRestart hostRestartFail 9 "init" true) ≠ 1 := by
  decide

/-- Claim C1 amended: per init-process exit the monitor sends exactly one
notification whose state is `StateExit` or `StateRestart`, except when a
restart is granted and its completion channel yields an error, in which
case it sends exactly two (the `StateRestart` and then the downgraded
`StateExit`); it never sends zero. -/
theorem waitExit_terminal_notification_count (ctr : container) (host : Host)
    (pid : Nat) (name : String) :
    terminalNotifyCount (waitExit ctr host pid name true) =
      if restartWaitFailed ctr host then 2 else 1 := by
  rcases hgp : host.GetComputeSystemProperties with e1 | pending <;>
  rcases hsh : host.ShutdownComputeSystem with _ | e2 <;>
  cases hrc : restartConsulted ctr <;>
  rcases hsr : host.ShouldRestart with er | ⟨_ | _, _ | we⟩ <;>
    simp [waitExit, terminalNotifyCount, isTerminalStateChanged,
      restartGranted, restartWaitFailed, hgp, hsh, hrc, hsr]

/-- Claim C3 counterexample: on a granted restart the trace does contain a
deregistration, but none of it occurs before the receive from the
completion channel — the deregistration the claim places at decision time
(before the restart attempt completes) does not happen there. -/
theorem waitExit_no_delete_before_resolve :
    restartGranted ctrRestart hostRestartOk = true ∧
    (waitExit ctrRestart hostRestartOk 9 "init" true).any isDeleteContainerCall = true ∧
    deleteBeforeResolve (waitExit ctrRestart hostRestartOk 9 "init" true) = false := by
  decide

/-- Claim C3 amended: when the restart manager grants a restart, the
container is deregistered only after the completion channel resolves
(inside the completion goroutine, whether the channel yields success or an
error), never before. -/
theorem waitExit_restart_deregisters_after_wait (ctr : container) (host : Host)
    (pid : Nat) (name : String)
    (hg : restartGranted ctr host = true) :
    deleteBeforeResolve (waitExit ctr host pid name true) = false ∧
    deleteAfterResolve (waitExit ctr host pid name true) = true := by
  have hc : restartConsulted ctr = true := by
    cases h : restartConsulted ctr
    · rw [restartGranted, h] at hg
      simp at hg
    · rfl
  rcases hsr : host.ShouldRestart with er | ⟨b, w⟩
  · rw [restartGranted, hsr] at hg
    simp [hc] at hg
  · cases b
    · rw [restartGranted, hsr] at hg
      simp [hc] at hg
    · rcases hgp : host.GetComputeSystemProperties with e1 | pending <;>
      rcases hsh : host.ShutdownComputeSystem with _ | e2 <;>
      cases w <;>
        simp [waitExit, deleteBeforeResolve, deleteAfterResolve, hc, hgp, hsh,
          hsr, restartGranted, isRestartWaitResolved, isDeleteContainerCall,
          isStateChangedCall]

/-- Witness for C3 amended, at a granted restart with a successful
completion. -/
theorem waitExit_restart_deregisters_after_wait_witness :
    restartGranted ctrRestart hostRestartOk = true ∧
    deleteBeforeResolve (waitExit ctrRestart hostRestartOk 11 "init" true) = false ∧
    deleteAfterResolve (waitExit ctrRestart hostRestartOk 11 "init" true) = true :=
  ⟨rfl, waitExit_restart_deregisters_after_wait ctrRestart hostRestartOk 11 "init" rfl⟩

/-- Claim C7 counterexample: the servicing-path shutdown call is made but
not with a 4-minute timeout (the source constant is `5 * 60 * 1000` even
though its comment says 4 minutes), and the `waitExit` terminate fallback
is made but not with a 1-minute timeout (it reuses the 5-minute shutdown
timeout). -/
theorem timeouts_differ_from_claim :
    ((start ctrServicing hostBase).2.any isShutdownCall = true ∧
     (start ctrServicing hostBase).2.any isFourMinuteShutdownCall = false) ∧
    ((waitExit ctrBase hostShutdownFail 3 "init" true).any isTerminateCall = true ∧
     (waitExit ctrBase hostShutdownFail 3 "init" true).any
       isOneMinuteTerminateCall = false) := by
  decide

/-- Claim C7 amended: every graceful-shutdown call in any `start` or
`waitExit` trace uses the 5-minute timeout (including the servicing path,
where only the adjacent source comment says 4 minutes), and the terminate
calls of each trace are exactly characterized with their per-path
timeouts: the servicing fallback is the single 1-minute call, the
creation-failure path is the single `TimeoutInfinite` (unbounded) call,
and the `waitExit` fallback, issued only for a non-whitelisted init
shutdown error, is the single call reusing the 5-minute shutdown
timeout. -/
theorem timeouts_actual (ctr : container) (host : Host) (pid : Nat)
    (name : String) (first : Bool) :
    ((start ctr host).2.all shutdownTimeoutIsFiveMinutes) = true ∧
    ((waitExit ctr host pid name first).all shutdownTimeoutIsFiveMinutes) = true ∧
    (start ctr host).2.filter isTerminateCall =
      (match host.StartComputeSystem with
       | some _ => []
       | none =>
         if ctr.options.any isServicingTrue then
           match host.ShutdownComputeSystem with
           | some _ => [Event.terminateComputeSystemCall (1 * 60 * 1000) ""]
           | none => []
         else
           match host.CreateProcessInComputeSystem with
           | .error _ =>
             [Event.terminateComputeSystemCall 4294967295
               "CreateProcessInComputeSystem failed"]
           | .ok _ => []) ∧
    (waitExit ctr host pid name first).filter isTerminateCall =
      (if first then
         match host.ShutdownComputeSystem with
         | some e =>
           if shutdownErrorWhitelisted e then []
           else [Event.terminateComputeSystemCall (5 * 60 * 1000) "waitExit"]
         | none => []
       else []) := by
  refine ⟨?_, ?_, ?_, ?_⟩
  · rcases hcs : host.StartComputeSystem with _ | e0
    · cases hsv : ctr.options.any isServicingTrue
      · rcases hcp : host.CreateProcessInComputeSystem with e | pid0 <;>
        rcases ha : host.AttachStreams with _ | e3 <;>
          simp [start, hcs, hsv, hcp, ha, shutdownTimeoutIsFiveMinutes]
      · rcases hsh : host.ShutdownComputeSystem with _ | e2 <;>
          simp [start, hcs, hsv, hsh, shutdownTimeoutIsFiveMinutes,
            servicingShutdownTimeout]
    · simp [start, hcs, shutdownTimeoutIsFiveMinutes]
  · cases first
    · simp [waitExit, shutdownTimeoutIsFiveMinutes]
    · rcases hgp : host.GetComputeSystemProperties with e1 | pending <;>
      rcases hsh : host.ShutdownComputeSystem with _ | e2 <;>
      cases hrc : restartConsulted ctr <;>
      rcases hsr : host.ShouldRestart with er | ⟨_ | _, _ | we⟩ <;>
        simp [waitExit, hgp, hsh, hrc, hsr, restartGranted,
          shutdownTimeoutIsFiveMinutes, waitExitShutdownTimeout]
  · rcases hcs : host.StartComputeSystem with _ | e0
    · cases hsv : ctr.options.any isServicingTrue
      · rcases hcp : host.CreateProcessInComputeSystem with e | pid0 <;>
        rcases ha : host.AttachStreams with _ | e3 <;>
          simp [start, hcs, hsv, hcp, ha, isTerminateCall, TimeoutInfinite]
      · rcases hsh : host.ShutdownComputeSystem with _ | e2 <;>
          simp [start, hcs, hsv, hsh, isTerminateCall,
            servicingTerminateTimeout]
    · simp [start, hcs, isTerminateCall]
  · cases first
    · simp [waitExit, isTerminateCall]
    · rcases hgp : host.GetComputeSystemProperties with e1 | pending <;>
      rcases hsh : host.ShutdownComputeSystem with _ | e2 <;>
      cases hrc : restartConsulted ctr <;>
      rcases hsr : host.ShouldRestart with er | ⟨_ | _, _ | we⟩ <;>
        simp [waitExit, hgp, hsh, hrc, hsr, restartGranted, isTerminateCall,
          waitExitShutdownTimeout]

end Libcontainerd
